import Mathlib

/-!
Shallow embedding of `src/build.py` (the fpid build orchestrator).

The script is a sequential pipeline driven by subprocess outcomes and
filesystem existence checks.  We model:

* the filesystem as an existence predicate `fs : String → Bool`
  (`os.path.exists`);
* each external command invocation outcome as `CmdOutcome`
  (`absent` = the executable is missing, raising `FileNotFoundError`;
  `exit n` = the process ran and returned exit code `n`, where `n > 0`
  raises `subprocess.CalledProcessError` under `check=True`);
* the process environment as an association list of variable
  assignments (the script writes `os.environ` once, in `__init__`);
* an uncaught Python exception as `Except.error` (the interpreter then
  terminates with a non-zero exit status), and a normal return of exit
  code `n` as `Except.ok n`.

Python string operations used by the script (`str.endswith`,
`needle in hay`) are modelled over character lists so that every
definition evaluates inside the kernel.
-/

/-- Python `l1` is a prefix test used below (same as `List.isPrefixOf`). -/
def listIsPrefix : List Char → List Char → Bool
  | [], _ => true
  | _ :: _, [] => false
  | a :: l, b :: m => a == b && listIsPrefix l m

/-- `listIsInfix needle hay` — does `needle` occur contiguously in `hay`? -/
def listIsInfix (needle : List Char) : List Char → Bool
  | [] => needle.isEmpty
  | c :: t => listIsPrefix needle (c :: t) || listIsInfix needle t

/-- Python `s.endswith(suffix)`. -/
def strEndsWith (s suffix : String) : Bool :=
  listIsPrefix suffix.toList.reverse s.toList.reverse

/-- Python `needle in hay` (substring containment). -/
def strContainsSub (hay needle : String) : Bool :=
  listIsInfix needle.toList hay.toList

/-- Python `s[:-n]` for `n ≤ len(s)`: drop the last `n` characters
(character-based, as Python slicing is). -/
def strDropRight (s : String) (n : Nat) : String :=
  String.mk (s.toList.take (s.toList.length - n))

/-- Outcome of one `subprocess.run` call: the executable may be absent
(`FileNotFoundError`), or the process ran and exited with a code. -/
inductive CmdOutcome where
  | absent
  | exit (code : Nat)
deriving Repr, DecidableEq

/-- The `paths` section of `build_config.toml` after extraction in
`GPUGovernorBuilder.__init__` (build.py lines 38-48): `paths.get` yields
`none` for absent keys; the numeric API level and the string fields with
defaults are stored already-resolved. -/
structure Paths where
  android_ndk_home : Option String
  llvm_path : Option String
  android_api_level : Nat
  target : String
  binary_name : String
  output_dir : String
deriving Repr, DecidableEq

/-- Python truthiness of an optional string (`None` and `""` are falsy). -/
def truthyOpt : Option String → Bool
  | none => false
  | some s => s != ""

/-- The string value handed to `os.path.exists` and to f-strings on the
branches where the script has already established truthiness. -/
def getStr : Option String → String
  | none => ""
  | some s => s

/-- build.py line 52: does the target triple look like a host triple? -/
def looksHostTriple (target : String) : Bool :=
  strEndsWith target "windows-msvc" || strEndsWith target "windows-gnu" ||
    strEndsWith target "unknown-linux-gnu"

/-- build.py lines 54-57: both toolchain paths supplied (truthy) and
existing on disk (short-circuit conjunction, as in Python `and`). -/
def toolchainPresent (fs : String → Bool) (ndk llvm : Option String) : Bool :=
  truthyOpt ndk && truthyOpt llvm && fs (getStr ndk) && fs (getStr llvm)

/-- build.py lines 51-58: the `native_build` flag computed in `__init__`. -/
def nativeBuild (fs : String → Bool) (p : Paths) : Bool :=
  looksHostTriple p.target && !toolchainPresent fs p.android_ndk_home p.llvm_path

/-- The state held by a constructed `GPUGovernorBuilder` object. -/
structure GPUGovernorBuilder where
  android_ndk_home : Option String
  llvm_path : Option String
  android_api_level : Nat
  target : String
  binary_name : String
  output_dir : String
  native_build : Bool
deriving Repr, DecidableEq

/-- build.py line 63: message of the `ValueError` raised when
`android_ndk_home` is missing in a non-native build. -/
def ndkMissingMsg : String := "配置文件中缺少 android_ndk_home 路径配置"

/-- build.py line 65: message of the `ValueError` raised when
`llvm_path` is missing in a non-native build. -/
def llvmMissingMsg : String := "配置文件中缺少 llvm_path 路径配置"

/-- build.py lines 50-66: `__init__` after config extraction, up to but
not including the `_setup_environment()` call.  `Except.error` is the
uncaught `ValueError`. -/
def initBuilder (fs : String → Bool) (p : Paths) :
    Except String GPUGovernorBuilder :=
  if !nativeBuild fs p && !truthyOpt p.android_ndk_home then
    Except.error ndkMissingMsg
  else if !nativeBuild fs p && !truthyOpt p.llvm_path then
    Except.error llvmMissingMsg
  else Except.ok
    { android_ndk_home := p.android_ndk_home
      llvm_path := p.llvm_path
      android_api_level := p.android_api_level
      target := p.target
      binary_name := p.binary_name
      output_dir := p.output_dir
      native_build := nativeBuild fs p }

/-- build.py line 82: the NDK prebuilt `bin` directory. -/
def prebuiltBin (ndk : String) : String :=
  ndk ++ "/toolchains/llvm/prebuilt/windows-x86_64/bin"

/-- build.py line 83: the primary (`.cmd`) linker candidate. -/
def linkerPrimary (ndk : String) (api : Nat) : String :=
  prebuiltBin ndk ++ "/aarch64-linux-android" ++ toString api ++ "-clang.cmd"

/-- build.py lines 83-88: the linker path after the `.bat` fallback probe
(`linker[:-4] + ".bat"` is tried only when the `.cmd` path is absent and
is used only when it exists). -/
def linkerPath (fs : String → Bool) (ndk : String) (api : Nat) : String :=
  if !fs (linkerPrimary ndk api) then
    if fs (strDropRight (linkerPrimary ndk api) 4 ++ ".bat") then
      strDropRight (linkerPrimary ndk api) 4 ++ ".bat"
    else linkerPrimary ndk api
  else linkerPrimary ndk api

/-- build.py lines 77-114: `_setup_environment`.  Returns the list of
`os.environ` assignments performed, in insertion order; `currentPath` is
the value of `os.environ.get("PATH", "")` read at line 102.  In a native
build no variable is set. -/
def setup_environment (fs : String → Bool) (b : GPUGovernorBuilder)
    (currentPath : String) : List (String × String) :=
  if b.native_build then []
  else
    [("ANDROID_NDK_HOME", getStr b.android_ndk_home),
     ("LLVM_PATH", getStr b.llvm_path),
     ("CARGO_TARGET_AARCH64_LINUX_ANDROID_LINKER",
       linkerPath fs (getStr b.android_ndk_home) b.android_api_level),
     ("CARGO_TARGET_AARCH64_LINUX_ANDROID_AR",
       getStr b.llvm_path ++ "/bin/llvm-ar.exe"),
     ("LIBCLANG_PATH", getStr b.llvm_path ++ "/bin"),
     ("BINDGEN_EXTRA_CLANG_ARGS",
       "--target=aarch64-linux-android -I" ++ getStr b.android_ndk_home ++
         "/toolchains/llvm/prebuilt/windows-x86_64/sysroot/usr/include"),
     ("PATH", getStr b.llvm_path ++ "/bin" ++ ";" ++
       prebuiltBin (getStr b.android_ndk_home) ++ ";" ++ currentPath)]

/-- The value of `os.environ.get("PATH", "")` after one run of
`_setup_environment` that started from search path `currentPath`. -/
def pathAfter (fs : String → Bool) (b : GPUGovernorBuilder)
    (currentPath : String) : String :=
  match (setup_environment fs b currentPath).lookup "PATH" with
  | some v => v
  | none => currentPath

/-- build.py lines 116-138: `_check_dependencies`.  Native builds have an
empty dependency list; cross builds require both toolchain directories to
exist; all missing entries are collected before failing. -/
def check_dependencies (fs : String → Bool) (b : GPUGovernorBuilder) : Bool :=
  let dependencies : List (String × String) :=
    if b.native_build then []
    else [(getStr b.android_ndk_home, "Android NDK"),
          (getStr b.llvm_path, "LLVM")]
  let missing_deps := (dependencies.filter (fun d => !fs d.1)).map
    (fun d => d.2 ++ ": " ++ d.1)
  missing_deps.isEmpty

/-- The subprocess outcomes consumed by one run of `build()`
(build.py lines 140-287), in invocation order.  The `rustup` outcomes
(lines 149-169) are recorded but never influence control flow: every
exception on that section is caught and the code proceeds. -/
structure BuildOutcomes where
  rustupList : CmdOutcome
  rustupAdd : CmdOutcome
  fmtCheck : CmdOutcome
  fmtFix : CmdOutcome
  fmtRecheck : CmdOutcome
  clippy : CmdOutcome
  cargoBuild : CmdOutcome
deriving Repr, DecidableEq

/-- build.py lines 171-233: the format section of `build()`.  Returns
`false` exactly when `build()` executes `return False` inside it.  The
check command: `FileNotFoundError` is caught (skip), exit 0 passes,
non-zero exit enters the fix block.  Inside the fix block the fix run
AND the recheck run share one `try`: a `CalledProcessError` from either
one reaches the handler at line 228 and returns `False`, while a
`FileNotFoundError` from either one is caught at line 225 and the flow
continues. -/
def formatGate (check fix recheck : CmdOutcome) : Bool :=
  match check with
  | .absent => true
  | .exit 0 => true
  | .exit (_ + 1) =>
    match fix with
    | .absent => true
    | .exit (_ + 1) => false
    | .exit 0 =>
      match recheck with
      | .absent => true
      | .exit 0 => true
      | .exit (_ + 1) => false

/-- build.py lines 235-261: the clippy section.  Absent tool is caught
(skip); a non-zero exit returns `False`. -/
def lintGateOk : CmdOutcome → Bool
  | .exit (_ + 1) => false
  | _ => true

/-- build.py lines 263-267: the cargo build command line.  The
`--target` extension is guarded by Python truthiness of `self.target`. -/
def buildCmd (target : String) : List String :=
  let cmd := ["cargo", "build", "--release"]
  if target != "" then cmd ++ ["--target", target] else cmd

/-- build.py lines 140-287: `build()`.  `deps` is the result of
`_check_dependencies`.  `Except.error` models the one uncaught exception
of this method: `FileNotFoundError` from the final cargo build `try`
(lines 270-287), which catches only `CalledProcessError`. -/
def buildMethod (deps : Bool) (o : BuildOutcomes) : Except String Bool :=
  if !deps then Except.ok false
  else if !formatGate o.fmtCheck o.fmtFix o.fmtRecheck then Except.ok false
  else if !lintGateOk o.clippy then Except.ok false
  else
    match o.cargoBuild with
    | .absent => Except.error "FileNotFoundError: cargo"
    | .exit 0 => Except.ok true
    | .exit (_ + 1) => Except.ok false

/-- Whether a run of `build()` reaches the clippy invocation (the Lint
Gate): the dependency check passed and the format section did not
return `False`. -/
def reachesLint (deps : Bool) (o : BuildOutcomes) : Bool :=
  deps && formatGate o.fmtCheck o.fmtFix o.fmtRecheck

/-- build.py lines 70-71: `_is_windows_target` — Python
`'windows' in (self.target or '')`. -/
def is_windows_target (b : GPUGovernorBuilder) : Bool :=
  strContainsSub b.target "windows"

/-- build.py lines 73-75: `_binary_suffix`, decided by the target
triple, not the host OS. -/
def binary_suffix (b : GPUGovernorBuilder) : String :=
  if is_windows_target b then ".exe" else ""

/-- build.py line 293: the expected compiled artifact location. -/
def sourcePath (b : GPUGovernorBuilder) : String :=
  "target/" ++ b.target ++ "/release/" ++ b.binary_name ++ binary_suffix b

/-- build.py line 303: the staged artifact destination. -/
def destPath (b : GPUGovernorBuilder) : String :=
  b.output_dir ++ "/" ++ b.binary_name ++ binary_suffix b

/-- build.py lines 289-311: `copy_binary`.  `fsPost` is the filesystem
after the build; returns `False` iff the source artifact is absent.
(`shutil.copy2` and `os.makedirs` OS-level failures are outside the
model.) -/
def copy_binary (fsPost : String → Bool) (b : GPUGovernorBuilder) : Bool :=
  fsPost (sourcePath b)

/-- build.py lines 331-350: `build_only_flow` — build, then stage. -/
def build_only_flow (fs : String → Bool) (b : GPUGovernorBuilder)
    (o : BuildOutcomes) (fsPost : String → Bool) : Except String Bool :=
  match buildMethod (check_dependencies fs b) o with
  | Except.error e => Except.error e
  | Except.ok false => Except.ok false
  | Except.ok true => Except.ok (copy_binary fsPost b)

/-- build.py lines 313-329: `clean()`.  The `cargo clean` call catches
only `CalledProcessError` (line 323): a non-zero exit is logged and the
method continues, but an absent cargo executable raises an uncaught
`FileNotFoundError`.  The output-directory removal is guarded by an
existence test and is modelled as always succeeding. -/
def cleanMethod (cargoClean : CmdOutcome) : Except String Unit :=
  match cargoClean with
  | .absent => Except.error "FileNotFoundError: cargo"
  | .exit _ => Except.ok ()

/-- A whole-process run: final interpreter status, the environment
assignments performed, and whether any subprocess was spawned. -/
structure RunTrace where
  exitResult : Except String Nat
  envSet : List (String × String)
  ranSubprocess : Bool
deriving Repr

/-- build.py lines 354-371: `main()`.  `configLoad` is the result of
`_toml_load_path` (lines 22-28; `Except.error` = the file is missing or
unparsable, an exception `main` never catches).  The builder is
constructed — including `_setup_environment` — before `args.clean` is
consulted; `--clean` then runs `clean()` and returns (exit 0), otherwise
`build_only_flow` decides between exit 0 and `sys.exit(1)`. -/
def mainTrace (configLoad : Except String Paths) (fs : String → Bool)
    (path0 : String) (cleanFlag : Bool) (cargoClean : CmdOutcome)
    (o : BuildOutcomes) (fsPost : String → Bool) : RunTrace :=
  match configLoad with
  | Except.error e => ⟨Except.error e, [], false⟩
  | Except.ok p =>
    match initBuilder fs p with
    | Except.error e => ⟨Except.error e, [], false⟩
    | Except.ok b =>
      let env := setup_environment fs b path0
      if cleanFlag then
        match cleanMethod cargoClean with
        | Except.error e => ⟨Except.error e, env, true⟩
        | Except.ok _ => ⟨Except.ok 0, env, true⟩
      else
        match build_only_flow fs b o fsPost with
        | Except.error e => ⟨Except.error e, env, true⟩
        | Except.ok true => ⟨Except.ok 0, env, true⟩
        | Except.ok false => ⟨Except.ok 1, env, true⟩

/-- Modelled from the spec: §4.2's wording for the linker path —
`<ndk_root>/toolchains/llvm/prebuilt/<host-os-triple>/bin/aarch64-linux-android<api_level>-clang`
with an extension, where the host-os-triple segment is the fixed
`windows-x86_64`.  Used only to compare the code's `linkerPath`
against the spec's formula. -/
def specLinkerBase (ndk : String) (api : Nat) : String :=
  ndk ++ "/toolchains/llvm/prebuilt/windows-x86_64/bin/aarch64-linux-android"
    ++ toString api ++ "-clang"

/-- Modelled from the spec: §4.2's selection rule — primary extension
`.cmd` tried first, secondary `.bat` used iff the primary is absent and
the secondary exists, primary kept when neither exists. -/
def specLinkerChoice (fs : String → Bool) (ndk : String) (api : Nat) : String :=
  if fs (specLinkerBase ndk api ++ ".cmd") then specLinkerBase ndk api ++ ".cmd"
  else if fs (specLinkerBase ndk api ++ ".bat") then specLinkerBase ndk api ++ ".bat"
  else specLinkerBase ndk api ++ ".cmd"

/-! ### Concrete fixtures -/

/-- A filesystem on which no path exists. -/
def fsNone : String → Bool := fun _ => false

/-- Spec §8 scenario A: host target, no toolchain paths supplied. -/
def pNative : Paths :=
  ⟨none, none, 33, "x86_64-pc-windows-msvc", "fpid", "output"⟩

/-- The builder that `__init__` constructs from `pNative`. -/
def bNative : GPUGovernorBuilder :=
  ⟨none, none, 33, "x86_64-pc-windows-msvc", "fpid", "output", true⟩

/-- A cross configuration whose toolchain paths are supplied (non-empty)
but do not exist on disk. -/
def pCross : Paths :=
  ⟨some "C:/ndk", some "C:/llvm", 33, "aarch64-linux-android", "fpid", "output"⟩

/-- The builder that `__init__` constructs from `pCross`. -/
def bCross : GPUGovernorBuilder :=
  ⟨some "C:/ndk", some "C:/llvm", 33, "aarch64-linux-android", "fpid", "output", false⟩

/-- Spec §8 scenario B: non-host-like target, no toolchain paths at all. -/
def pNoPaths : Paths :=
  ⟨none, none, 33, "aarch64-linux-android", "fpid", "output"⟩

/-- Subprocess outcomes in which every command is found and exits 0. -/
def oAllPass : BuildOutcomes :=
  ⟨.exit 0, .exit 0, .exit 0, .exit 0, .exit 0, .exit 0, .exit 0⟩

/-- Format-section outcomes of claim C1: check fails, fix succeeds,
recheck fails. -/
def oRecheckFail : BuildOutcomes :=
  ⟨.exit 0, .exit 0, .exit 1, .exit 0, .exit 1, .exit 0, .exit 0⟩

/-- Format-section outcomes: check fails, fix succeeds, recheck passes. -/
def oRecheckOk : BuildOutcomes :=
  ⟨.exit 0, .exit 0, .exit 1, .exit 0, .exit 0, .exit 0, .exit 0⟩

example : initBuilder fsNone pNative = Except.ok bNative := rfl
example : initBuilder fsNone pCross = Except.ok bCross := rfl
example : initBuilder fsNone pNoPaths = Except.error ndkMissingMsg := rfl
example : nativeBuild fsNone pNative = true := by decide
example : nativeBuild fsNone pCross = false := by decide

/-! ### Helper lemmas -/

/-- Truthiness plus on-disk existence of an optional path, expressed
propositionally. -/
theorem truthy_exists (fs : String → Bool) (o : Option String) :
    (truthyOpt o = true ∧ fs (getStr o) = true) ↔
      ∃ s, o = some s ∧ s ≠ "" ∧ fs s = true := by
  cases o with
  | none => simp [truthyOpt, getStr]
  | some a => simp [truthyOpt, getStr, bne_iff_ne, and_assoc]

/-- `toolchainPresent` expressed propositionally. -/
theorem toolchainPresent_iff (fs : String → Bool) (nd lv : Option String) :
    toolchainPresent fs nd lv = true ↔
      (∃ s, nd = some s ∧ s ≠ "" ∧ fs s = true) ∧
      (∃ t, lv = some t ∧ t ≠ "" ∧ fs t = true) := by
  rw [← truthy_exists fs nd, ← truthy_exists fs lv]
  unfold toolchainPresent
  simp only [Bool.and_eq_true]
  tauto

/-- `nativeBuild` expressed propositionally, in the spec's vocabulary. -/
theorem nativeBuild_iff (fs : String → Bool) (p : Paths) :
    nativeBuild fs p = true ↔
      ((strEndsWith p.target "windows-msvc" = true ∨
        strEndsWith p.target "windows-gnu" = true ∨
        strEndsWith p.target "unknown-linux-gnu" = true) ∧
       ¬((∃ s, p.android_ndk_home = some s ∧ s ≠ "" ∧ fs s = true) ∧
         (∃ t, p.llvm_path = some t ∧ t ≠ "" ∧ fs t = true))) := by
  unfold nativeBuild looksHostTriple
  rw [Bool.and_eq_true, Bool.not_eq_true', Bool.eq_false_iff,
      ← toolchainPresent_iff fs p.android_ndk_home p.llvm_path]
  simp only [Bool.or_eq_true, ne_eq]
  tauto

/-- A successfully constructed builder records exactly the computed
`nativeBuild` flag. -/
theorem initBuilder_native (fs : String → Bool) (p : Paths)
    (b : GPUGovernorBuilder) (h : initBuilder fs p = Except.ok b) :
    b.native_build = nativeBuild fs p := by
  unfold initBuilder at h
  split at h
  · exact absurd h (by simp)
  · split at h
    · exact absurd h (by simp)
    · cases h
      rfl

/-- Dropping the four characters of a `".cmd"` suffix recovers the stem. -/
theorem strDropRight_cmd (s : String) : strDropRight (s ++ ".cmd") 4 = s := by
  unfold strDropRight
  apply congrArg String.mk
  show (s.toList ++ ".cmd".toList).take ((s.toList ++ ".cmd".toList).length - 4)
      = s.toList
  rw [List.length_append]
  have hlen : ".cmd".toList.length = 4 := rfl
  have h4 : s.toList.length + ".cmd".toList.length - 4 = s.toList.length + 0 := by
    rw [hlen]
    omega
  rw [h4, List.take_append, List.take_zero, List.append_nil]

/-- The code's primary linker candidate equals the spec's path formula
with the `.cmd` extension. -/
theorem linkerPrimary_eq_spec (ndk : String) (api : Nat) :
    linkerPrimary ndk api = specLinkerBase ndk api ++ ".cmd" := by
  unfold linkerPrimary prebuiltBin specLinkerBase
  simp only [String.append_assoc]
  rfl

/-- The code's linker selection coincides with the spec's first-match
rule for every filesystem, NDK root and API level. -/
theorem linkerPath_eq_spec (fs : String → Bool) (ndk : String) (api : Nat) :
    linkerPath fs ndk api = specLinkerChoice fs ndk api := by
  unfold linkerPath specLinkerChoice
  rw [linkerPrimary_eq_spec, strDropRight_cmd]
  cases h1 : fs (specLinkerBase ndk api ++ ".cmd") <;>
    simp [h1]

/-! ### Claim theorems -/

/-- C6: mode resolution is a pure function of the configuration: a
constructed builder is in native mode iff the target triple ends with
`windows-msvc`, `windows-gnu` or `unknown-linux-gnu` AND it is not the
case that both toolchain paths are supplied (non-empty) and exist on
disk. -/
theorem mode_resolution_iff (fs : String → Bool) (p : Paths)
    (b : GPUGovernorBuilder) (h : initBuilder fs p = Except.ok b) :
    b.native_build = true ↔
      ((strEndsWith p.target "windows-msvc" = true ∨
        strEndsWith p.target "windows-gnu" = true ∨
        strEndsWith p.target "unknown-linux-gnu" = true) ∧
       ¬((∃ s, p.android_ndk_home = some s ∧ s ≠ "" ∧ fs s = true) ∧
         (∃ t, p.llvm_path = some t ∧ t ≠ "" ∧ fs t = true))) := by
  rw [initBuilder_native fs p b h]
  exact nativeBuild_iff fs p

/-- C6 witness: the scenario-A configuration resolves to native mode. -/
theorem mode_resolution_iff_witness : bNative.native_build = true :=
  (mode_resolution_iff fsNone pNative bNative rfl).mpr
    ⟨Or.inl (by decide), fun hc => by
      rcases hc.1 with ⟨s, hs, _⟩
      simp [pNative] at hs⟩

/-- C10: when the configuration file cannot be loaded or parsed, the
process terminates with the uncaught exception (non-zero exit) during
construction — with or without `--clean` — before any environment
variable is set and before any subprocess runs. -/
theorem config_load_failure_aborts (e : String) (fs : String → Bool)
    (path0 : String) (cleanFlag : Bool) (cargoClean : CmdOutcome)
    (o : BuildOutcomes) (fsPost : String → Bool) :
    mainTrace (Except.error e) fs path0 cleanFlag cargoClean o fsPost =
      ⟨Except.error e, [], false⟩ := rfl

/-- C9: the staged-binary suffix is a pure function of the target
triple: it is `.exe` or empty, non-empty exactly when the triple
contains `windows`, and the staged artifact path is
`<output_dir>/<binary_name><suffix>`. -/
theorem binary_suffix_pure (b : GPUGovernorBuilder) :
    (binary_suffix b = "" ∨ binary_suffix b = ".exe")
    ∧ (¬binary_suffix b = "" ↔ strContainsSub b.target "windows" = true)
    ∧ destPath b = b.output_dir ++ "/" ++ b.binary_name ++ binary_suffix b := by
  refine ⟨?_, ?_, rfl⟩
  · unfold binary_suffix
    cases h : is_windows_target b <;> simp [h]
  · unfold binary_suffix is_windows_target
    cases h : strContainsSub b.target "windows" <;> simp [h]

/-- C7 counterexample: a native-mode build does NOT omit the explicit
target argument — with the default host target the command line still
carries `--target x86_64-pc-windows-msvc`. -/
theorem native_build_passes_target :
    initBuilder fsNone pNative = Except.ok bNative
    ∧ bNative.native_build = true
    ∧ buildCmd bNative.target =
        ["cargo", "build", "--release", "--target", "x86_64-pc-windows-msvc"] :=
  ⟨rfl, rfl, rfl⟩

/-- C7 amended: the compiler invocation is always a release-mode build,
and the explicit target argument is present iff the target string is
non-empty — independent of native versus cross mode. -/
theorem build_cmd_target_iff (target : String) :
    (buildCmd target).take 3 = ["cargo", "build", "--release"]
    ∧ ("--target" ∈ buildCmd target ↔ target ≠ "") := by
  unfold buildCmd
  split
  · rename_i h
    refine ⟨rfl, ?_⟩
    constructor
    · intro _
      exact bne_iff_ne.mp h
    · intro _
      exact List.mem_append_right _ (List.Mem.head _)
  · rename_i h
    refine ⟨rfl, ?_⟩
    constructor
    · intro hmem
      exact absurd hmem (by decide)
    · intro hne
      exact absurd (bne_iff_ne.mpr hne) h

/-- C8: in cross mode the composed linker variable holds exactly the
path computed by the fallback probe, and that path agrees with the
spec's formula `<ndk>/toolchains/llvm/prebuilt/windows-x86_64/bin/aarch64-linux-android<api>-clang`
under the spec's first-match extension rule (`.cmd` tried first, `.bat`
used iff the `.cmd` path is absent and the `.bat` path exists, `.cmd`
kept when neither exists). -/
theorem linker_selection_spec (fs : String → Bool) (b : GPUGovernorBuilder)
    (cp : String) (hb : b.native_build = false) :
    (setup_environment fs b cp).lookup
        "CARGO_TARGET_AARCH64_LINUX_ANDROID_LINKER" =
      some (linkerPath fs (getStr b.android_ndk_home) b.android_api_level)
    ∧ ∀ (ndk : String) (api : Nat),
        linkerPath fs ndk api = specLinkerChoice fs ndk api := by
  refine ⟨?_, fun ndk api => linkerPath_eq_spec fs ndk api⟩
  unfold setup_environment
  rw [hb]
  rfl

/-- C8 witness: the linker variable of the concrete cross builder. -/
theorem linker_selection_spec_witness :
    (setup_environment fsNone bCross "BASE").lookup
        "CARGO_TARGET_AARCH64_LINUX_ANDROID_LINKER" =
      some (linkerPath fsNone (getStr bCross.android_ndk_home)
        bCross.android_api_level) :=
  (linker_selection_spec fsNone bCross "BASE" rfl).1

/-- C1 counterexample: check fails, fix succeeds, recheck fails — the
pipeline does NOT proceed to the Lint Gate; `build()` returns `False`. -/
theorem format_recheck_counterexample :
    reachesLint true oRecheckFail = false
    ∧ buildMethod true oRecheckFail = Except.ok false := ⟨rfl, rfl⟩

/-- C1 amended: after a failed check and a successful reformat, the
pipeline proceeds to the Lint Gate iff the recheck does not exit
non-zero (recheck exit 0, or recheck tool absent); a non-zero recheck
exit fails the pipeline a second time. -/
theorem format_recheck_gates (deps : Bool) (o : BuildOutcomes) (n : Nat)
    (hc : o.fmtCheck = CmdOutcome.exit (n + 1))
    (hf : o.fmtFix = CmdOutcome.exit 0) (hd : deps = true) :
    reachesLint deps o = true ↔
      (o.fmtRecheck = CmdOutcome.absent ∨
        o.fmtRecheck = CmdOutcome.exit 0) := by
  subst hd
  unfold reachesLint
  rw [hc, hf]
  cases hr : o.fmtRecheck with
  | absent => simp [formatGate]
  | exit k =>
    cases k with
    | zero => simp [formatGate]
    | succ m => simp [formatGate]

/-- C1 amended witness: with a clean recheck the Lint Gate is reached. -/
theorem format_recheck_gates_witness : reachesLint true oRecheckOk = true :=
  (format_recheck_gates true oRecheckOk 0 rfl rfl rfl).mpr (Or.inr rfl)

/-- C2 counterexample: composing the environment twice from the same
cross BuildConfig does not reproduce the PATH value byte-identically —
the toolchain bin directories are prepended a second time. -/
theorem compose_twice_counterexample :
    (setup_environment fsNone bCross
        (pathAfter fsNone bCross "BASE")).lookup "PATH" ≠
      (setup_environment fsNone bCross "BASE").lookup "PATH" := by decide

/-- C2 amended: the Environment Composer is idempotent for every
composed variable except PATH: any non-PATH variable receives a
byte-identical value when composition runs a second time from the
environment state the first run left behind. -/
theorem compose_idempotent_except_path (fs : String → Bool)
    (b : GPUGovernorBuilder) (path0 key : String) (hk : key ≠ "PATH") :
    (setup_environment fs b (pathAfter fs b path0)).lookup key =
      (setup_environment fs b path0).lookup key := by
  have hk' : (key == "PATH") = false := beq_eq_false_iff_ne.mpr hk
  cases hb : b.native_build with
  | true => simp [setup_environment, hb]
  | false => simp [setup_environment, hb, List.lookup, hk']

/-- C2 amended witness: the LLVM_PATH variable is reproduced
byte-identically on the second composition. -/
theorem compose_idempotent_except_path_witness :
    (setup_environment fsNone bCross
        (pathAfter fsNone bCross "BASE")).lookup "LLVM_PATH" =
      (setup_environment fsNone bCross "BASE").lookup "LLVM_PATH" :=
  compose_idempotent_except_path fsNone bCross "BASE" "LLVM_PATH" (by decide)

/-- C3 counterexample: scenario-B configuration (non-host-like target,
both toolchain paths absent) — the constructor raises a ValueError whose
message names only `android_ndk_home`; it does not cite `llvm_path`, so
the error does not cite both missing paths. -/
theorem config_error_cites_first_only :
    mainTrace (Except.ok pNoPaths) fsNone "BASE" false (CmdOutcome.exit 0)
        oAllPass fsNone =
      ⟨Except.error ndkMissingMsg, [], false⟩
    ∧ strContainsSub ndkMissingMsg "llvm_path" = false := ⟨rfl, by decide⟩

/-- C3 amended: for a non-host-like target with `android_ndk_home`
missing, construction fails with the ValueError citing that first
missing path (the message names `android_ndk_home`), before any
environment variable is set and before any subprocess runs. -/
theorem config_error_first_missing (fs : String → Bool) (p : Paths)
    (path0 : String) (cleanFlag : Bool) (cc : CmdOutcome) (o : BuildOutcomes)
    (fsPost : String → Bool) (htarget : looksHostTriple p.target = false)
    (hndk : truthyOpt p.android_ndk_home = false) :
    mainTrace (Except.ok p) fs path0 cleanFlag cc o fsPost =
      ⟨Except.error ndkMissingMsg, [], false⟩
    ∧ strContainsSub ndkMissingMsg "android_ndk_home" = true := by
  refine ⟨?_, by decide⟩
  have hnb : nativeBuild fs p = false := by
    unfold nativeBuild
    rw [htarget]
    rfl
  have hinit : initBuilder fs p = Except.error ndkMissingMsg := by
    unfold initBuilder
    rw [hnb, hndk]
    rfl
  simp only [mainTrace, hinit]

/-- C3 amended witness: scenario B aborts this way even under
`--clean`. -/
theorem config_error_first_missing_witness :
    mainTrace (Except.ok pNoPaths) fsNone "BASE" true CmdOutcome.absent
        oAllPass fsNone =
      ⟨Except.error ndkMissingMsg, [], false⟩
    ∧ strContainsSub ndkMissingMsg "android_ndk_home" = true :=
  config_error_first_missing fsNone pNoPaths "BASE" true CmdOutcome.absent
    oAllPass fsNone (by decide) (by decide)

/-- C4 counterexample: a cross configuration whose toolchain paths are
supplied but nonexistent on disk is accepted by the constructor — the
on-disk existence requirement is NOT a construction-time failure; only
the later dependency validation rejects it. -/
theorem cross_exists_not_checked_at_init :
    initBuilder fsNone pCross = Except.ok bCross
    ∧ bCross.native_build = false
    ∧ fsNone (getStr bCross.android_ndk_home) = false
    ∧ fsNone (getStr bCross.llvm_path) = false
    ∧ check_dependencies fsNone bCross = false :=
  ⟨rfl, rfl, rfl, rfl, rfl⟩

/-- C4 amended: in cross mode the constructor enforces only that both
toolchain paths are non-empty; on-disk existence is enforced later, by
the dependency validation stage, which fails whenever either path is
missing on disk. -/
theorem cross_init_nonempty_only :
    (∀ (fs : String → Bool) (p : Paths), nativeBuild fs p = false →
      ((∃ b, initBuilder fs p = Except.ok b) ↔
        (truthyOpt p.android_ndk_home = true ∧ truthyOpt p.llvm_path = true)))
    ∧ (∀ (fs : String → Bool) (b : GPUGovernorBuilder),
        b.native_build = false →
        (fs (getStr b.android_ndk_home) = false ∨
          fs (getStr b.llvm_path) = false) →
        check_dependencies fs b = false) := by
  constructor
  · intro fs p hnb
    unfold initBuilder
    rw [hnb]
    cases hn : truthyOpt p.android_ndk_home with
    | false => simp [hn]
    | true =>
      cases hl : truthyOpt p.llvm_path with
      | false => simp [hn, hl]
      | true => simp [hn, hl]
  · intro fs b hb hmiss
    rcases hmiss with h | h
    · simp [check_dependencies, hb, List.filter, h]
    · cases hfd : fs (getStr b.android_ndk_home) <;>
        simp [check_dependencies, hb, List.filter, h, hfd]

/-- C4 amended witness: the concrete cross configuration with
nonexistent paths is accepted at construction and rejected by the
dependency check. -/
theorem cross_init_nonempty_only_witness :
    (∃ b, initBuilder fsNone pCross = Except.ok b)
    ∧ check_dependencies fsNone bCross = false :=
  ⟨(cross_init_nonempty_only.1 fsNone pCross rfl).mpr ⟨rfl, rfl⟩,
   cross_init_nonempty_only.2 fsNone bCross rfl (Or.inl rfl)⟩

/-- C5 counterexample: an invocation with `--clean` on which the cargo
executable is absent terminates with an uncaught FileNotFoundError —
a non-zero exit on the clean path. -/
theorem clean_cargo_absent_crashes :
    (mainTrace (Except.ok pNative) fsNone "BASE" true CmdOutcome.absent
        oAllPass fsNone).exitResult =
      Except.error "FileNotFoundError: cargo" := rfl

/-- C5 amended: `--clean` takes precedence and skips the build pipeline
entirely (the run is independent of every build-stage input), and when
construction succeeds and the cargo executable is present the exit code
is zero — even when `cargo clean` itself exits non-zero, since that
failure is caught and logged. -/
theorem clean_skips_build (configLoad : Except String Paths)
    (fs : String → Bool) (path0 : String) (cc : CmdOutcome)
    (o o' : BuildOutcomes) (fsPost fsPost' : String → Bool) :
    mainTrace configLoad fs path0 true cc o fsPost =
      mainTrace configLoad fs path0 true cc o' fsPost'
    ∧ (∀ (p : Paths) (b : GPUGovernorBuilder) (n : Nat),
        configLoad = Except.ok p → initBuilder fs p = Except.ok b →
        cc = CmdOutcome.exit n →
        (mainTrace configLoad fs path0 true cc o fsPost).exitResult =
          Except.ok 0) := by
  constructor
  · cases configLoad with
    | error e => rfl
    | ok p =>
      unfold mainTrace
      cases h : initBuilder fs p with
      | error e => rfl
      | ok b => rfl
  · intro p b n hp hb hcc
    subst hp
    subst hcc
    simp [mainTrace, hb, cleanMethod]

/-- C5 amended witness: `--clean` with a present cargo that exits 7
still ends with exit code 0. -/
theorem clean_skips_build_witness :
    (mainTrace (Except.ok pNative) fsNone "BASE" true (CmdOutcome.exit 7)
        oAllPass fsNone).exitResult = Except.ok 0 :=
  (clean_skips_build (Except.ok pNative) fsNone "BASE" (CmdOutcome.exit 7)
      oAllPass oAllPass fsNone fsNone).2 pNative bNative 7 rfl rfl rfl
